import Mathlib

/-!
Shallow embedding of src/converter.py: a converter from rows of the TCGA
pancreatic-adenocarcinoma clinical table to FHIR transaction bundles.
Python dicts keyed by strings are modelled as association lists, uuid4
generation as an external supply of strings indexed by a counter, and
fallible Python operations (dict lookup, list indexing, float parsing)
as Option-valued functions.
-/

/-- Fixed identifier-system constant PATIENT_ID_SYSTEM (converter.py line 18). -/
def PATIENT_ID_SYSTEM : String := "https://www.gmds.de/pk-nachwuchs/patient"

/-- Fixed identifier-system constant STUDY_PATIENT_ID_SYSTEM (line 19). -/
def STUDY_PATIENT_ID_SYSTEM : String := "https://www.cbioportal.org/patient"

/-- Fixed identifier-system constant STUDY_ID_SYSTEM (line 20). -/
def STUDY_ID_SYSTEM : String := "https://www.cbioportal.org/study"

/-- Fixed study natural key STUDY_ID_VALUE (line 21). -/
def STUDY_ID_VALUE : String := "paad_tcga_pan_can_atlas_2018"

/-- FHIR Identifier: system plus value. -/
structure Identifier where
  system : String
  value : String
deriving Repr, DecidableEq

/-- FHIR Coding triple; display is optional because get_label may return None. -/
structure Coding where
  system : String
  code : String
  display : Option String
deriving Repr, DecidableEq

/-- FHIR CodeableConcept: a list of codings. -/
structure CodeableConcept where
  coding : List Coding
deriving Repr, DecidableEq

/-- FHIR Reference: the literal reference string, e.g. "Patient/<uuid>". -/
structure Reference where
  reference : String
deriving Repr, DecidableEq

/-- FHIR Age quantity: numeric value and UCUM unit string. -/
structure Age where
  value : Rat
  unit : String
deriving Repr, DecidableEq

/-- Patient resource as populated by create_patient (lines 57-69). -/
structure Patient where
  identifier : List Identifier
  gender : String
  deceasedBoolean : Bool
  id : String
deriving Repr, DecidableEq

/-- ResearchSubject resource as populated by create_research_subject (lines 72-87). -/
structure ResearchSubject where
  status : String
  subject : Reference
  study : Reference
  identifier : List Identifier
  id : String
deriving Repr, DecidableEq

/-- Condition resource as populated by create_condition (lines 110-142). -/
structure Condition where
  clinicalStatus : CodeableConcept
  subject : Reference
  onsetAge : Age
  id : String
  code : CodeableConcept
deriving Repr, DecidableEq

/-- Procedure resource as populated by create_procedure (lines 145-165). -/
structure Procedure where
  status : String
  subject : Reference
  id : String
  code : CodeableConcept
deriving Repr, DecidableEq

/-- ResearchStudy resource as populated by create_research_study (lines 29-54). -/
structure ResearchStudy where
  status : String
  identifier : List Identifier
  name : String
  title : String
  version : String
  id : String
  progressStatus : List Coding
deriving Repr, DecidableEq

/-- Union of the resource kinds a bundle entry can hold. -/
inductive Resource where
  | patient : Patient → Resource
  | researchSubject : ResearchSubject → Resource
  | condition : Condition → Resource
  | procedure : Procedure → Resource
  | researchStudy : ResearchStudy → Resource
deriving Repr, DecidableEq

/-- BundleEntryRequest: url, method, optional conditional-create guard. -/
structure BundleEntryRequest where
  url : String
  method : String
  ifNoneExist : Option String
deriving Repr, DecidableEq

/-- BundleEntry: resource payload, request descriptor, fullUrl. -/
structure BundleEntry where
  resource : Resource
  request : BundleEntryRequest
  fullUrl : String
deriving Repr, DecidableEq

/-- Bundle: type string and entry list. -/
structure Bundle where
  type : String
  entry : List BundleEntry
deriving Repr, DecidableEq

/-- The four module-level uuid dicts (lines 23-26) plus the state of the
uuid4 supply, modelled as a counter into an external stream of ids. -/
structure ConvState where
  counter : Nat
  patients_uuid : List (String × String)
  research_subject_uuid : List (String × String)
  condition_uuid : List (String × String)
  procedure_uuid : List (String × String)
deriving Repr, DecidableEq

/-- Python dict read d[k]: the most recent binding of k, None-able. -/
def dictGet (d : List (String × String)) (k : String) : Option String :=
  (d.find? (fun p => p.1 == k)).map (fun p => p.2)

/-- Python dict write d[k] = v, modelled by shadowing. -/
def dictSet (d : List (String × String)) (k v : String) : List (String × String) :=
  (k, v) :: d

/-- Python str.lower(), as a character-wise map over the string data. -/
def strLower (s : String) : String :=
  String.mk (s.data.map Char.toLower)

/-- Model of str(uuid.uuid4()): draws the next id from the supply g. -/
def uuid4 (g : Nat → String) (s : ConvState) : String × ConvState :=
  (g s.counter, { s with counter := s.counter + 1 })

/-- Initial module state: all four dicts empty, supply at 0. -/
def initState : ConvState :=
  { counter := 0, patients_uuid := [], research_subject_uuid := []
  , condition_uuid := [], procedure_uuid := [] }

/-- Digit run to its decimal value. -/
def digitsToNat (cs : List Char) : Nat :=
  cs.foldl (fun a c => a * 10 + (c.toNat - 48)) 0

/-- Unsigned decimal literal, digits with an optional fractional part,
returned as numerator over a power of ten: digits "." digits with value
(intPart * 10 ^ k + fracPart, k) where k is the fraction length. -/
def parseUnsigned (cs : List Char) : Option (Nat × Nat) :=
  let intDs := cs.takeWhile Char.isDigit
  let rest := cs.dropWhile Char.isDigit
  match rest with
  | [] =>
      if intDs.isEmpty then none
      else some (digitsToNat intDs, 0)
  | '.' :: fracDs =>
      if fracDs.all Char.isDigit ∧ (intDs ≠ [] ∨ fracDs ≠ []) then
        some (digitsToNat intDs * 10 ^ fracDs.length + digitsToNat fracDs, fracDs.length)
      else none
  | _ => none

/-- Model of Python float() (line 112) on the decimal-literal strings this
dataset contains: optional sign, digit run with optional fractional part,
with fractional precision preserved exactly as a rational. Exponent,
infinity and nan spellings do not occur in this input and are not
modelled. Failure (None) models the ValueError float() raises. -/
def parseFloat (s : String) : Option Rat :=
  match s.toList with
  | '-' :: cs => (parseUnsigned cs).map (fun p => mkRat (-(p.1 : Int)) (10 ^ p.2))
  | '+' :: cs => (parseUnsigned cs).map (fun p => mkRat (p.1 : Int) (10 ^ p.2))
  | cs => (parseUnsigned cs).map (fun p => mkRat (p.1 : Int) (10 ^ p.2))

/-- get_label (lines 90-107): the eight known ICD-10-GM codes map to German
labels; any other code falls through the match and yields Python None. -/
def get_label (icd_10_code : String) : Option String :=
  match icd_10_code with
  | "C25.0" => some "Bösartige Neubildung: Pankreaskopf"
  | "C25.1" => some "Bösartige Neubildung: Pankreaskörper"
  | "C25.2" => some "Bösartige Neubildung: Pankreasschwanz"
  | "C25.3" => some "Bösartige Neubildung: Ductus pancreaticus"
  | "C25.4" => some "Bösartige Neubildung: Endokriner Drüsenanteil des Pankreas"
  | "C25.7" => some "Bösartige Neubildung: Sonstige Teile des Pankreas"
  | "C25.8" => some "Bösartige Neubildung: Pankreas, mehrere Teilbereiche überlappend"
  | "C25.9" => some "Bösartige Neubildung: Pankreas, nicht näher bezeichnet"
  | _ => none

/-- The eight codes enumerated in get_label. -/
def knownCodes : List String :=
  ["C25.0", "C25.1", "C25.2", "C25.3", "C25.4", "C25.7", "C25.8", "C25.9"]

/-- create_research_study (lines 29-54): the standalone ResearchStudy
resource; research_study_id is the module-level global set in main. -/
def create_research_study (research_study_id : String) : ResearchStudy :=
  { status := "active"
  , identifier := [{ system := STUDY_ID_SYSTEM, value := "paad_tcga_pan_can_atlas_2018" }]
  , name := "tcga_pancreatic_adenocarcinoma"
  , title := "Pancreatic Adenocarcinoma (TCGA, PanCancer Atlas)"
  , version := "1.0.0"
  , id := research_study_id
  , progressStatus := [{ system := "http://hl7.org/fhir/research-study-status"
                       , code := "completed", display := some "Completed" }] }

/-- create_patient (lines 57-69): builds the Patient and stores a fresh
uuid under the study_subject_id key of patients_uuid. -/
def create_patient (g : Nat → String) (s : ConvState)
    (study_subject_id patient_id gender : String) (living_status : Bool) :
    Patient × ConvState :=
  let pat_identifier : Identifier := { system := PATIENT_ID_SYSTEM, value := strLower patient_id }
  let (u, s1) := uuid4 g s
  let s2 := { s1 with patients_uuid := dictSet s1.patients_uuid study_subject_id u }
  ({ identifier := [pat_identifier]
   , gender := strLower gender
   , deceasedBoolean := living_status
   , id := u }, s2)

/-- create_research_subject (lines 72-87): reads patients_uuid (a missing
key would raise KeyError, modelled as none), references the global
research_study_id, and stores a fresh uuid in research_subject_uuid. -/
def create_research_subject (g : Nat → String) (research_study_id : String)
    (s : ConvState) (study_patient_id : String) :
    Option (ResearchSubject × ConvState) :=
  match dictGet s.patients_uuid study_patient_id with
  | none => none
  | some pid =>
    let pat_ref : Reference := { reference := "Patient/" ++ pid }
    let study_ref : Reference := { reference := "ResearchStudy/" ++ research_study_id }
    let (u, s1) := uuid4 g s
    let s2 := { s1 with research_subject_uuid := dictSet s1.research_subject_uuid study_patient_id u }
    some ({ status := "active"
          , subject := pat_ref
          , study := study_ref
          , identifier := [{ system := STUDY_PATIENT_ID_SYSTEM, value := study_patient_id }]
          , id := u }, s2)

/-- create_condition (lines 110-142): parses the onset age with float()
(none models the ValueError), sets UCUM unit "a", reads patients_uuid for
the subject reference, and stores a fresh uuid in condition_uuid. -/
def create_condition (g : Nat → String) (s : ConvState)
    (study_subject_id icd_code onset_age : String) :
    Option (Condition × ConvState) :=
  match parseFloat onset_age with
  | none => none
  | some v =>
    let age : Age := { value := v, unit := "a" }
    match dictGet s.patients_uuid study_subject_id with
    | none => none
    | some pid =>
      let (u, s1) := uuid4 g s
      let s2 := { s1 with condition_uuid := dictSet s1.condition_uuid study_subject_id u }
      some ({ clinicalStatus :=
                { coding := [{ system := "http://terminology.hl7.org/CodeSystem/condition-clinical"
                             , code := "active", display := some "Active" }] }
            , subject := { reference := "Patient/" ++ pid }
            , onsetAge := age
            , id := u
            , code := { coding := [{ system := "http://fhir.de/CodeSystem/bfarm/icd-10-gm"
                                   , code := icd_code
                                   , display := get_label icd_code }] } }, s2)

/-- create_procedure (lines 145-165): fixed SNOMED radiotherapy coding,
reads patients_uuid for the subject, stores a fresh uuid in procedure_uuid. -/
def create_procedure (g : Nat → String) (s : ConvState) (study_subject_id : String) :
    Option (Procedure × ConvState) :=
  match dictGet s.patients_uuid study_subject_id with
  | none => none
  | some pid =>
    let (u, s1) := uuid4 g s
    let s2 := { s1 with procedure_uuid := dictSet s1.procedure_uuid study_subject_id u }
    some ({ status := "completed"
          , subject := { reference := "Patient/" ++ pid }
          , id := u
          , code := { coding := [{ system := "http://snomed.info/sct"
                                 , code := "1287742003"
                                 , display := some "Radiotherapy (procedure)" }] } }, s2)

/-- The ResearchStudy create-request descriptor built at lines 185-190.
It depends only on module constants; create_bundle constructs it but never
attaches it to any entry of the bundle. -/
def research_study_request : BundleEntryRequest :=
  { url := "ResearchStudy", method := "POST"
  , ifNoneExist := some ("identifier=" ++ STUDY_ID_SYSTEM ++ "|" ++ STUDY_ID_VALUE) }

/-- create_bundle (lines 168-243): extracts the seven fixed-position
fields (an out-of-range index raises IndexError, modelled via get?),
derives the two sentinel booleans, builds Patient, ResearchSubject,
Condition and conditionally Procedure in that order, wraps each in an
entry and composes the transaction bundle. Returns the bundle paired
with the study_subject_id and the final module state. -/
def create_bundle (g : Nat → String) (research_study_id : String)
    (s : ConvState) (data_values : List String) :
    Option ((Bundle × String) × ConvState) := do
  let study_subject_id ← data_values.get? 1
  let onset_age ← data_values.get? 3
  let icd_10_code ← data_values.get? 24
  let v35 ← data_values.get? 35
  let secondary_pat_id ← data_values.get? 36
  let v46 ← data_values.get? 46
  let gender ← data_values.get? 50
  let is_alive : Bool := v35 == "0:LIVING"
  let radio_therapy : Bool := v46 == "Yes"
  let pat_entry_request : BundleEntryRequest :=
    { url := "Patient", method := "POST"
    , ifNoneExist := some ("identifier=" ++ PATIENT_ID_SYSTEM ++ "|" ++ strLower secondary_pat_id) }
  let research_subject_request : BundleEntryRequest :=
    { url := "ResearchSubject", method := "POST"
    , ifNoneExist := some ("identifier=" ++ STUDY_PATIENT_ID_SYSTEM ++ "|" ++ study_subject_id) }
  let (pat, s1) := create_patient g s study_subject_id secondary_pat_id gender is_alive
  let (research_subject, s2) ← create_research_subject g research_study_id s1 study_subject_id
  let (condition, s3) ← create_condition g s2 study_subject_id icd_10_code onset_age
  let (procedure_entry, s4) ←
    if radio_therapy then do
      let (procedure, s4) ← create_procedure g s3 study_subject_id
      let pe : BundleEntry :=
        { resource := Resource.procedure procedure
        , request := { url := "Procedure", method := "POST", ifNoneExist := none }
        , fullUrl := "Procedure/" ++ procedure.id }
      pure ((some pe : Option BundleEntry), s4)
    else
      pure ((none : Option BundleEntry), s3)
  let pat_entry : BundleEntry :=
    { resource := Resource.patient pat
    , request := pat_entry_request
    , fullUrl := "Patient/" ++ pat.id }
  let research_subject_entry : BundleEntry :=
    { resource := Resource.researchSubject research_subject
    , request := research_subject_request
    , fullUrl := "ResearchSubject/" ++ research_subject.id }
  let condition_entry : BundleEntry :=
    { resource := Resource.condition condition
    , request := { url := "Condition", method := "POST", ifNoneExist := none }
    , fullUrl := "Condition/" ++ condition.id }
  let baseEntries : List BundleEntry := [pat_entry, research_subject_entry, condition_entry]
  let transaction_bundle : Bundle :=
    { type := "transaction"
    , entry := match procedure_entry with
               | some pe => baseEntries ++ [pe]
               | none => baseEntries }
  pure ((transaction_bundle, study_subject_id), s4)

/-- Helper for splitTab: walk the characters, cutting at each tab; acc
holds the current field reversed. -/
def splitTabAux : List Char → List Char → List String
  | [], acc => [String.mk acc.reverse]
  | c :: cs, acc =>
    if c = '\t' then String.mk acc.reverse :: splitTabAux cs []
    else splitTabAux cs (c :: acc)

/-- Python line.split("\t") (line 267): fields between tabs, empties kept. -/
def splitTab (line : String) : List String :=
  splitTabAux line.data []

/-- One unit handed to the output collaborator: either the standalone
study (study.json) or a per-row bundle keyed by its subject id. -/
inductive Output where
  | study : ResearchStudy → Output
  | bundle : String → Bundle → Output
deriving Repr, DecidableEq

/-- The row loop of main (lines 266-273): split each line on tabs, build
a bundle, key the output by the returned subject id. A row on which
create_bundle raises aborts the run (none). -/
def processRows (g : Nat → String) (research_study_id : String) :
    ConvState → List String → Option (List Output)
  | _, [] => some []
  | s, line :: rest =>
    match create_bundle g research_study_id s (splitTab line) with
    | none => none
    | some ((b, subject_id), s1) =>
      (processRows g research_study_id s1 rest).map
        (fun os => Output.bundle subject_id b :: os)

/-- The main block (lines 246-273): with no research-study-id argument the
program generates a fresh study id, writes the single study output and
exits without touching any row; with the argument present it processes
every line after the header and never writes a study output. -/
def main_run (g : Nat → String) (research_study_id_arg : Option String)
    (lines : List String) : Option (List Output) :=
  match research_study_id_arg with
  | none =>
    let (research_study_id, _) := uuid4 g initState
    some [Output.study (create_research_study research_study_id)]
  | some research_study_id =>
    processRows g research_study_id initState (lines.drop 1)

/-- The resource-kind tag of an entry payload, as used in fullUrl prefixes. -/
def resourceKind : Resource → String
  | Resource.patient _ => "Patient"
  | Resource.researchSubject _ => "ResearchSubject"
  | Resource.condition _ => "Condition"
  | Resource.procedure _ => "Procedure"
  | Resource.researchStudy _ => "ResearchStudy"

/-- The resource id of an entry payload. -/
def resourceId : Resource → String
  | Resource.patient p => p.id
  | Resource.researchSubject r => r.id
  | Resource.condition c => c.id
  | Resource.procedure p => p.id
  | Resource.researchStudy r => r.id

/-- The kinds of a bundle's entries in order. -/
def bundleKinds (b : Bundle) : List String :=
  b.entry.map (fun e => resourceKind e.resource)

/-- The resource ids of a bundle's entries in order. -/
def bundleIds (b : Bundle) : List String :=
  b.entry.map (fun e => resourceId e.resource)

/-- The fullUrl strings of a bundle's entries in order. -/
def fullUrls (b : Bundle) : List String :=
  b.entry.map (fun e => e.fullUrl)

/-- Every cross-reference URL held by a resource of the bundle:
ResearchSubject.subject, ResearchSubject.study, Condition.subject and
Procedure.subject, in entry order. -/
def refsOf (b : Bundle) : List String :=
  b.entry.flatMap (fun e =>
    match e.resource with
    | Resource.patient _ => []
    | Resource.researchSubject r => [r.subject.reference, r.study.reference]
    | Resource.condition c => [c.subject.reference]
    | Resource.procedure p => [p.subject.reference]
    | Resource.researchStudy _ => [])

/-- The subject cross-references only (study references excluded). -/
def subjectRefsOf (b : Bundle) : List String :=
  b.entry.flatMap (fun e =>
    match e.resource with
    | Resource.patient _ => []
    | Resource.researchSubject r => [r.subject.reference]
    | Resource.condition c => [c.subject.reference]
    | Resource.procedure p => [p.subject.reference]
    | Resource.researchStudy _ => [])

/-- The study cross-references only. -/
def studyRefsOf (b : Bundle) : List String :=
  b.entry.flatMap (fun e =>
    match e.resource with
    | Resource.researchSubject r => [r.study.reference]
    | _ => [])

/-- The no-dangling-references property claimed by the spec. -/
def noDangling (b : Bundle) : Prop :=
  ∀ r ∈ refsOf b, r ∈ fullUrls b

instance (b : Bundle) : Decidable (noDangling b) := by
  unfold noDangling; infer_instance

/-- The Patient payloads of a bundle, in entry order. -/
def patientsOf (b : Bundle) : List Patient :=
  b.entry.flatMap (fun e =>
    match e.resource with
    | Resource.patient p => [p]
    | _ => [])

/-- The Condition payloads of a bundle, in entry order. -/
def conditionsOf (b : Bundle) : List Condition :=
  b.entry.flatMap (fun e =>
    match e.resource with
    | Resource.condition c => [c]
    | _ => [])

/-- The ResearchSubject payloads of a bundle, in entry order. -/
def researchSubjectsOf (b : Bundle) : List ResearchSubject :=
  b.entry.flatMap (fun e =>
    match e.resource with
    | Resource.researchSubject r => [r]
    | _ => [])

/-- Whether a bundle contains a Procedure entry. -/
def hasProcedure (b : Bundle) : Bool :=
  b.entry.any (fun e => resourceKind e.resource == "Procedure")

/-- Whether an output is the standalone study. -/
def isStudyOutput : Output → Bool
  | Output.study _ => true
  | Output.bundle _ _ => false

/-- An injective uuid supply used for concrete evaluations: id n is the
string of n+1 letters u. -/
def gen0 (n : Nat) : String :=
  String.mk (List.replicate (n + 1) 'u')

/-- gen0 is injective: distinct indices give distinct ids. -/
theorem gen0_injective : Function.Injective gen0 := by
  intro a b h
  have hlen := congrArg (fun s => s.data.length) h
  simpa [gen0] using hlen

/-- A concrete 51-field row shaped like one data line of the TCGA table. -/
def sampleRow : List String :=
  ((((((List.replicate 51 "").set 1 "TCGA-XX-0001").set 3 "63.5").set 24 "C25.0").set
      35 "0:LIVING").set 36 "TCGA-ABC").set 46 "Yes" |>.set 50 "Male"

/-- A second concrete row: same subject key, other sentinel values. -/
def sampleRow2 : List String :=
  ((((((List.replicate 51 "").set 1 "TCGA-XX-0001").set 3 "40").set 24 "Z99.9").set
      35 "1:DECEASED").set 36 "TCGA-ABC").set 46 "yes" |>.set 50 "Female"

/-- Fallback value used only to destructure Option results of concrete runs. -/
def dummyResult : (Bundle × String) × ConvState :=
  (({ type := "", entry := [] }, ""), initState)

/-- The concrete run of create_bundle on sampleRow. -/
def run1 : Option ((Bundle × String) × ConvState) :=
  create_bundle gen0 "S" initState sampleRow

/-- The bundle produced by run1. -/
def b1v : Bundle := (run1.getD dummyResult).1.1

/-- The subject key produced by run1. -/
def k1v : String := (run1.getD dummyResult).1.2

/-- The module state after run1. -/
def s1v : ConvState := (run1.getD dummyResult).2

/-- The concrete run of create_bundle on sampleRow2, continuing from s1v. -/
def run2 : Option ((Bundle × String) × ConvState) :=
  create_bundle gen0 "S" s1v sampleRow2

/-- The bundle produced by run2. -/
def b2v : Bundle := (run2.getD dummyResult).1.1

/-- The subject key produced by run2. -/
def k2v : String := (run2.getD dummyResult).1.2

/-- The module state after run2. -/
def s2v : ConvState := (run2.getD dummyResult).2


/-- The Patient create_bundle builds from a row: counter position c,
sentinel v35, secondary id v36, gender v50. -/
def builtPatient (g : Nat → String) (c : Nat) (v35 v36 v50 : String) : Patient :=
  { identifier := [{ system := PATIENT_ID_SYSTEM, value := strLower v36 }]
  , gender := strLower v50
  , deceasedBoolean := v35 == "0:LIVING"
  , id := g c }

/-- The ResearchSubject create_bundle builds from a row with subject key v1. -/
def builtResearchSubject (g : Nat → String) (rid : String) (c : Nat) (v1 : String) :
    ResearchSubject :=
  { status := "active"
  , subject := { reference := "Patient/" ++ g c }
  , study := { reference := "ResearchStudy/" ++ rid }
  , identifier := [{ system := STUDY_PATIENT_ID_SYSTEM, value := v1 }]
  , id := g (c + 1) }

/-- The Condition create_bundle builds from a row with code v24 and parsed age q. -/
def builtCondition (g : Nat → String) (c : Nat) (v24 : String) (q : Rat) : Condition :=
  { clinicalStatus :=
      { coding := [{ system := "http://terminology.hl7.org/CodeSystem/condition-clinical"
                   , code := "active", display := some "Active" }] }
  , subject := { reference := "Patient/" ++ g c }
  , onsetAge := { value := q, unit := "a" }
  , id := g (c + 2)
  , code := { coding := [{ system := "http://fhir.de/CodeSystem/bfarm/icd-10-gm"
                         , code := v24, display := get_label v24 }] } }

/-- The Procedure create_bundle builds when the radiotherapy flag is set. -/
def builtProcedure (g : Nat → String) (c : Nat) : Procedure :=
  { status := "completed"
  , subject := { reference := "Patient/" ++ g c }
  , id := g (c + 3)
  , code := { coding := [{ system := "http://snomed.info/sct"
                         , code := "1287742003"
                         , display := some "Radiotherapy (procedure)" }] } }

/-- The full bundle create_bundle assembles from the seven row fields and
the parsed onset age. -/
def builtBundle (g : Nat → String) (rid : String) (c : Nat)
    (v1 v24 v35 v36 v46 v50 : String) (q : Rat) : Bundle :=
  { type := "transaction"
  , entry :=
      [ { resource := Resource.patient (builtPatient g c v35 v36 v50)
        , request := { url := "Patient", method := "POST"
                     , ifNoneExist := some ("identifier=" ++ PATIENT_ID_SYSTEM ++ "|" ++ strLower v36) }
        , fullUrl := "Patient/" ++ g c }
      , { resource := Resource.researchSubject (builtResearchSubject g rid c v1)
        , request := { url := "ResearchSubject", method := "POST"
                     , ifNoneExist := some ("identifier=" ++ STUDY_PATIENT_ID_SYSTEM ++ "|" ++ v1) }
        , fullUrl := "ResearchSubject/" ++ g (c + 1) }
      , { resource := Resource.condition (builtCondition g c v24 q)
        , request := { url := "Condition", method := "POST", ifNoneExist := none }
        , fullUrl := "Condition/" ++ g (c + 2) } ]
      ++ (if v46 == "Yes" then
            [ { resource := Resource.procedure (builtProcedure g c)
              , request := { url := "Procedure", method := "POST", ifNoneExist := none }
              , fullUrl := "Procedure/" ++ g (c + 3) } ]
          else []) }

/-- The module state after create_bundle on a row with subject key v1. -/
def builtState (g : Nat → String) (s : ConvState) (v1 : String) (radio : Bool) : ConvState :=
  { counter := s.counter + (if radio then 4 else 3)
  , patients_uuid := dictSet s.patients_uuid v1 (g s.counter)
  , research_subject_uuid := dictSet s.research_subject_uuid v1 (g (s.counter + 1))
  , condition_uuid := dictSet s.condition_uuid v1 (g (s.counter + 2))
  , procedure_uuid :=
      if radio then dictSet s.procedure_uuid v1 (g (s.counter + 3)) else s.procedure_uuid }

/-- Reading back the key just written returns the written value. -/
@[simp] theorem dictGet_set_self (d : List (String × String)) (k v : String) :
    dictGet (dictSet d k v) k = some v := by
  simp [dictGet, dictSet, List.find?]

set_option maxHeartbeats 1000000 in
/-- Shape lemma: on a row whose seven fixed-position fields are present and
whose onset-age field parses, create_bundle succeeds and produces exactly
the bundle, key and state described by builtBundle and builtState. -/
theorem create_bundle_eq (g : Nat → String) (rid : String) (s : ConvState)
    (row : List String) (v1 v3 v24 v35 v36 v46 v50 : String) (q : Rat)
    (h1 : row[1]? = some v1) (h3 : row[3]? = some v3)
    (h24 : row[24]? = some v24) (h35 : row[35]? = some v35)
    (h36 : row[36]? = some v36) (h46 : row[46]? = some v46)
    (h50 : row[50]? = some v50) (hq : parseFloat v3 = some q) :
    create_bundle g rid s row =
      some ((builtBundle g rid s.counter v1 v24 v35 v36 v46 v50 q, v1),
            builtState g s v1 (v46 == "Yes")) := by
  by_cases hB : v46 = "Yes" <;>
    simp [create_bundle, h1, h3, h24, h35, h36, h46, h50, hq, hB,
      create_patient, create_research_subject, create_condition, create_procedure,
      uuid4, builtBundle, builtState, builtPatient, builtResearchSubject,
      builtCondition, builtProcedure, Nat.add_assoc]

set_option maxHeartbeats 4000000 in
/-- Inversion: a successful create_bundle forces the seven fields to be
present and the onset age to parse, and the result is the built shape. -/
theorem create_bundle_some (g : Nat → String) (rid : String) (s : ConvState)
    (row : List String) (r : (Bundle × String) × ConvState)
    (h : create_bundle g rid s row = some r) :
    ∃ v1 v3 v24 v35 v36 v46 v50 q,
      row[1]? = some v1 ∧ row[3]? = some v3 ∧ row[24]? = some v24 ∧
      row[35]? = some v35 ∧ row[36]? = some v36 ∧ row[46]? = some v46 ∧
      row[50]? = some v50 ∧ parseFloat v3 = some q ∧
      r = ((builtBundle g rid s.counter v1 v24 v35 v36 v46 v50 q, v1),
           builtState g s v1 (v46 == "Yes")) := by
  rcases hg1 : row[1]? with _ | v1
  · simp [create_bundle, hg1] at h
  rcases hg3 : row[3]? with _ | v3
  · simp [create_bundle, hg1, hg3] at h
  rcases hg24 : row[24]? with _ | v24
  · simp [create_bundle, hg1, hg3, hg24] at h
  rcases hg35 : row[35]? with _ | v35
  · simp [create_bundle, hg1, hg3, hg24, hg35] at h
  rcases hg36 : row[36]? with _ | v36
  · simp [create_bundle, hg1, hg3, hg24, hg35, hg36] at h
  rcases hg46 : row[46]? with _ | v46
  · simp [create_bundle, hg1, hg3, hg24, hg35, hg36, hg46] at h
  rcases hg50 : row[50]? with _ | v50
  · simp [create_bundle, hg1, hg3, hg24, hg35, hg36, hg46, hg50] at h
  rcases hq : parseFloat v3 with _ | q
  · simp [create_bundle, hg1, hg3, hg24, hg35, hg36, hg46, hg50, hq,
      create_patient, create_research_subject, create_condition, uuid4] at h
  refine ⟨v1, v3, v24, v35, v36, v46, v50, q, ?_, ?_, ?_, ?_, ?_, ?_, ?_, ?_, ?_⟩ <;>
    first
      | exact hg1
      | exact hg3
      | exact hg24
      | exact hg35
      | exact hg36
      | exact hg46
      | exact hg50
      | exact hq
      | rfl
      | (rw [create_bundle_eq g rid s row v1 v3 v24 v35 v36 v46 v50 q
              hg1 hg3 hg24 hg35 hg36 hg46 hg50 hq] at h
         injection h with h'
         exact h'.symm)

/-- Entry kinds of a built bundle: the three fixed kinds, then Procedure
exactly when the radiotherapy flag field equals "Yes". -/
theorem bundleKinds_builtBundle (g : Nat → String) (rid : String) (c : Nat)
    (v1 v24 v35 v36 v46 v50 : String) (q : Rat) :
    bundleKinds (builtBundle g rid c v1 v24 v35 v36 v46 v50 q) =
      if v46 == "Yes" then ["Patient", "ResearchSubject", "Condition", "Procedure"]
      else ["Patient", "ResearchSubject", "Condition"] := by
  by_cases hB : v46 = "Yes" <;> simp [builtBundle, bundleKinds, resourceKind, hB]

/-- Resource ids of a built bundle are consecutive draws from the supply. -/
theorem bundleIds_builtBundle (g : Nat → String) (rid : String) (c : Nat)
    (v1 v24 v35 v36 v46 v50 : String) (q : Rat) :
    bundleIds (builtBundle g rid c v1 v24 v35 v36 v46 v50 q) =
      [g c, g (c + 1), g (c + 2)] ++ (if v46 == "Yes" then [g (c + 3)] else []) := by
  by_cases hB : v46 = "Yes" <;>
    simp [builtBundle, bundleIds, resourceId, builtPatient, builtResearchSubject,
      builtCondition, builtProcedure, hB]

/-- fullUrl list of a built bundle. -/
theorem fullUrls_builtBundle (g : Nat → String) (rid : String) (c : Nat)
    (v1 v24 v35 v36 v46 v50 : String) (q : Rat) :
    fullUrls (builtBundle g rid c v1 v24 v35 v36 v46 v50 q) =
      ["Patient/" ++ g c, "ResearchSubject/" ++ g (c + 1), "Condition/" ++ g (c + 2)]
        ++ (if v46 == "Yes" then ["Procedure/" ++ g (c + 3)] else []) := by
  by_cases hB : v46 = "Yes" <;> simp [builtBundle, fullUrls, hB]

/-- All subject references of a built bundle point at the Patient fullUrl. -/
theorem subjectRefsOf_builtBundle (g : Nat → String) (rid : String) (c : Nat)
    (v1 v24 v35 v36 v46 v50 : String) (q : Rat) :
    subjectRefsOf (builtBundle g rid c v1 v24 v35 v36 v46 v50 q) =
      ["Patient/" ++ g c, "Patient/" ++ g c]
        ++ (if v46 == "Yes" then ["Patient/" ++ g c] else []) := by
  by_cases hB : v46 = "Yes" <;>
    simp [builtBundle, subjectRefsOf, builtPatient, builtResearchSubject,
      builtCondition, builtProcedure, hB]

/-- The only study reference of a built bundle is the global study id. -/
theorem studyRefsOf_builtBundle (g : Nat → String) (rid : String) (c : Nat)
    (v1 v24 v35 v36 v46 v50 : String) (q : Rat) :
    studyRefsOf (builtBundle g rid c v1 v24 v35 v36 v46 v50 q) =
      ["ResearchStudy/" ++ rid] := by
  by_cases hB : v46 = "Yes" <;>
    simp [builtBundle, studyRefsOf, builtPatient, builtResearchSubject,
      builtCondition, builtProcedure, hB]

/-- The single Patient payload of a built bundle. -/
theorem patientsOf_builtBundle (g : Nat → String) (rid : String) (c : Nat)
    (v1 v24 v35 v36 v46 v50 : String) (q : Rat) :
    patientsOf (builtBundle g rid c v1 v24 v35 v36 v46 v50 q) =
      [builtPatient g c v35 v36 v50] := by
  by_cases hB : v46 = "Yes" <;>
    simp [builtBundle, patientsOf, builtPatient, builtResearchSubject,
      builtCondition, builtProcedure, hB]

/-- The single Condition payload of a built bundle. -/
theorem conditionsOf_builtBundle (g : Nat → String) (rid : String) (c : Nat)
    (v1 v24 v35 v36 v46 v50 : String) (q : Rat) :
    conditionsOf (builtBundle g rid c v1 v24 v35 v36 v46 v50 q) =
      [builtCondition g c v24 q] := by
  by_cases hB : v46 = "Yes" <;>
    simp [builtBundle, conditionsOf, builtPatient, builtResearchSubject,
      builtCondition, builtProcedure, hB]

/-- The single ResearchSubject payload of a built bundle. -/
theorem researchSubjectsOf_builtBundle (g : Nat → String) (rid : String) (c : Nat)
    (v1 v24 v35 v36 v46 v50 : String) (q : Rat) :
    researchSubjectsOf (builtBundle g rid c v1 v24 v35 v36 v46 v50 q) =
      [builtResearchSubject g rid c v1] := by
  by_cases hB : v46 = "Yes" <;>
    simp [builtBundle, researchSubjectsOf, builtPatient, builtResearchSubject,
      builtCondition, builtProcedure, hB]

/-- A built bundle has a Procedure entry iff the flag field equals "Yes". -/
theorem hasProcedure_builtBundle (g : Nat → String) (rid : String) (c : Nat)
    (v1 v24 v35 v36 v46 v50 : String) (q : Rat) :
    hasProcedure (builtBundle g rid c v1 v24 v35 v36 v46 v50 q) = (v46 == "Yes") := by
  by_cases hB : v46 = "Yes" <;>
    simp [builtBundle, hasProcedure, resourceKind, hB]

/-- No entry of a built bundle holds a ResearchStudy resource. -/
theorem no_study_entry_builtBundle (g : Nat → String) (rid : String) (c : Nat)
    (v1 v24 v35 v36 v46 v50 : String) (q : Rat) :
    ∀ e ∈ (builtBundle g rid c v1 v24 v35 v36 v46 v50 q).entry,
      resourceKind e.resource ≠ "ResearchStudy" := by
  by_cases hB : v46 = "Yes" <;>
    simp [builtBundle, resourceKind, hB]

/-- C1 (amended): in every bundle create_bundle returns, each subject
cross-reference (ResearchSubject.subject, Condition.subject,
Procedure.subject) equals the fullUrl of an entry of the same bundle, but
the ResearchSubject.study reference points at ResearchStudy/<study-id>
and the bundle contains no ResearchStudy entry, so that one reference is
not covered by any fullUrl. -/
theorem claim_C1 (g : Nat → String) (rid : String) (s : ConvState)
    (row : List String) (b : Bundle) (k : String) (s2 : ConvState)
    (h : create_bundle g rid s row = some ((b, k), s2)) :
    (∀ r ∈ subjectRefsOf b, r ∈ fullUrls b) ∧
    studyRefsOf b = ["ResearchStudy/" ++ rid] ∧
    (∀ e ∈ b.entry, resourceKind e.resource ≠ "ResearchStudy") := by
  obtain ⟨v1, v3, v24, v35, v36, v46, v50, q, _, _, _, _, _, _, _, _, hr⟩ :=
    create_bundle_some g rid s row _ h
  rw [Prod.ext_iff, Prod.ext_iff] at hr
  obtain ⟨⟨hb, _⟩, _⟩ := hr
  subst hb
  refine ⟨?_, studyRefsOf_builtBundle g rid s.counter v1 v24 v35 v36 v46 v50 q,
    no_study_entry_builtBundle g rid s.counter v1 v24 v35 v36 v46 v50 q⟩
  intro r hrr
  rw [subjectRefsOf_builtBundle] at hrr
  rw [fullUrls_builtBundle]
  by_cases hB : v46 = "Yes" <;> simp [hB] at hrr ⊢ <;> simp [hrr]

/-- C1 witness: at a concrete row the amended conclusion is realized. -/
theorem claim_C1_witness : studyRefsOf b1v = ["ResearchStudy/" ++ "S"] :=
  (claim_C1 gen0 "S" initState sampleRow b1v k1v s1v (by decide)).2.1

/-- C1 counterexample: on a concrete row the bundle has a dangling
reference (the study reference), refuting the claim as stated. -/
theorem claim_C1_cex :
    create_bundle gen0 "S" initState sampleRow = some ((b1v, k1v), s1v) ∧
    ¬ noDangling b1v :=
  ⟨by decide, by decide⟩

/-- C2: every bundle is a transaction whose entries are Patient,
ResearchSubject, Condition in that order, with a trailing Procedure entry
exactly when the radiotherapy flag field equals "Yes", and nothing else. -/
theorem claim_C2 (g : Nat → String) (rid : String) (s : ConvState)
    (row : List String) (b : Bundle) (k : String) (s2 : ConvState) (v46 : String)
    (h : create_bundle g rid s row = some ((b, k), s2))
    (h46 : row[46]? = some v46) :
    b.type = "transaction" ∧
    bundleKinds b =
      (if v46 == "Yes" then ["Patient", "ResearchSubject", "Condition", "Procedure"]
       else ["Patient", "ResearchSubject", "Condition"]) := by
  obtain ⟨v1, v3, v24, v35, v36, v46x, v50, q, _, _, _, _, _, hg46, _, _, hr⟩ :=
    create_bundle_some g rid s row _ h
  rw [h46] at hg46
  injection hg46 with hv
  subst hv
  rw [Prod.ext_iff, Prod.ext_iff] at hr
  obtain ⟨⟨hb, _⟩, _⟩ := hr
  subst hb
  exact ⟨rfl, bundleKinds_builtBundle g rid s.counter v1 v24 v35 v36 v46 v50 q⟩

/-- C2 witness: concrete instance with the Procedure entry present. -/
theorem claim_C2_witness :
    b1v.type = "transaction" ∧
    bundleKinds b1v =
      (if "Yes" == "Yes" then ["Patient", "ResearchSubject", "Condition", "Procedure"]
       else ["Patient", "ResearchSubject", "Condition"]) :=
  claim_C2 gen0 "S" initState sampleRow b1v k1v s1v "Yes" (by decide) (by decide)

/-- C3 (amended): the Patient entry carries the lowercased-secondary-id
guard, the ResearchSubject entry the as-is subject-id guard, and the
Condition and Procedure entries plain unconditional creates; the
ResearchStudy guard string is built (research_study_request) but the
bundle contains no ResearchStudy entry it could be attached to. -/
theorem claim_C3 (g : Nat → String) (rid : String) (s : ConvState)
    (row : List String) (b : Bundle) (k : String) (s2 : ConvState)
    (v1 v36 v46 : String)
    (h : create_bundle g rid s row = some ((b, k), s2))
    (h1 : row[1]? = some v1) (h36 : row[36]? = some v36)
    (h46 : row[46]? = some v46) :
    b.entry.map (fun e => e.request) =
      ([ { url := "Patient", method := "POST"
         , ifNoneExist := some ("identifier=" ++ PATIENT_ID_SYSTEM ++ "|" ++ strLower v36) }
       , { url := "ResearchSubject", method := "POST"
         , ifNoneExist := some ("identifier=" ++ STUDY_PATIENT_ID_SYSTEM ++ "|" ++ v1) }
       , { url := "Condition", method := "POST", ifNoneExist := none } ]
       ++ (if v46 == "Yes" then
             [{ url := "Procedure", method := "POST", ifNoneExist := none }]
           else [])) ∧
    research_study_request.ifNoneExist =
      some ("identifier=" ++ STUDY_ID_SYSTEM ++ "|" ++ STUDY_ID_VALUE) ∧
    (∀ e ∈ b.entry, resourceKind e.resource ≠ "ResearchStudy") := by
  obtain ⟨v1x, v3, v24, v35, v36x, v46x, v50, q, hg1, _, _, _, hg36, hg46, _, _, hr⟩ :=
    create_bundle_some g rid s row _ h
  rw [h1] at hg1; injection hg1 with hv1; subst hv1
  rw [h36] at hg36; injection hg36 with hv36; subst hv36
  rw [h46] at hg46; injection hg46 with hv46; subst hv46
  rw [Prod.ext_iff, Prod.ext_iff] at hr
  obtain ⟨⟨hb, _⟩, _⟩ := hr
  subst hb
  refine ⟨?_, rfl, no_study_entry_builtBundle g rid s.counter v1 v24 v35 v36 v46 v50 q⟩
  by_cases hB : v46 = "Yes" <;> simp [builtBundle, hB]

/-- C3 witness: concrete instance of the amended guard layout. -/
theorem claim_C3_witness :
    research_study_request.ifNoneExist =
      some ("identifier=" ++ STUDY_ID_SYSTEM ++ "|" ++ STUDY_ID_VALUE) :=
  (claim_C3 gen0 "S" initState sampleRow b1v k1v s1v "TCGA-XX-0001" "TCGA-ABC" "Yes"
    (by decide) (by decide) (by decide) (by decide)).2.1

/-- C3 counterexample: the concrete bundle has no ResearchStudy entry, so
no Study transaction entry carrying a guard exists, refuting the claim as
stated. -/
theorem claim_C3_cex :
    create_bundle gen0 "S" initState sampleRow = some ((b1v, k1v), s1v) ∧
    b1v.entry.filter (fun e => resourceKind e.resource == "ResearchStudy") = [] :=
  ⟨by decide, by decide⟩

/-- C4 (amended): the onset age is parsed as a decimal with fractional
precision preserved ("63.5" parses to the rational 63.5), and the
Diagnosis carries that numeric value with UCUM unit "a" (year), not the
word "years". -/
theorem claim_C4 (g : Nat → String) (rid : String) (s : ConvState)
    (row : List String) (b : Bundle) (k : String) (s2 : ConvState)
    (v3 : String) (q : Rat)
    (h : create_bundle g rid s row = some ((b, k), s2))
    (h3 : row[3]? = some v3) (hq : parseFloat v3 = some q) :
    (conditionsOf b).map (fun c => c.onsetAge) = [{ value := q, unit := "a" }] ∧
    parseFloat "63.5" = some (63.5 : Rat) := by
  obtain ⟨v1, v3x, v24, v35, v36, v46, v50, qx, _, hg3, _, _, _, _, _, hgq, hr⟩ :=
    create_bundle_some g rid s row _ h
  rw [h3] at hg3; injection hg3 with hv3; subst hv3
  rw [hq] at hgq; injection hgq with hvq; subst hvq
  rw [Prod.ext_iff, Prod.ext_iff] at hr
  obtain ⟨⟨hb, _⟩, _⟩ := hr
  subst hb
  constructor
  · rw [conditionsOf_builtBundle]
    simp [builtCondition]
  · have h127 : (63.5 : Rat) = mkRat 127 2 := by norm_num
    rw [h127]
    decide

/-- C4 witness: the concrete row with onset field "63.5". -/
theorem claim_C4_witness :
    (conditionsOf b1v).map (fun c => c.onsetAge) = [{ value := mkRat 127 2, unit := "a" }] ∧
    parseFloat "63.5" = some (63.5 : Rat) :=
  claim_C4 gen0 "S" initState sampleRow b1v k1v s1v "63.5" (mkRat 127 2)
    (by decide) (by decide) (by decide)

/-- C4 counterexample: on the row with onset "63.5" the unit is "a", not
"years", refuting the claim as stated. -/
theorem claim_C4_cex :
    create_bundle gen0 "S" initState sampleRow = some ((b1v, k1v), s1v) ∧
    sampleRow[3]? = some "63.5" ∧
    (conditionsOf b1v).map (fun c => c.onsetAge.unit) = ["a"] ∧
    "a" ≠ "years" :=
  ⟨by decide, by decide, by decide, by decide⟩

/-- A row whose onset-age field is not a decimal number. -/
def sampleRowBad : List String :=
  sampleRow.set 3 "not-a-number"

/-- A state holding one patients_uuid binding, for exercising
create_condition directly. -/
def condState : ConvState :=
  { initState with counter := 1, patients_uuid := [("k", "u")] }

/-- C5: the living-status boolean is derived as equality with "0:LIVING",
the Procedure entry is present exactly when the treatment-flag field is
"Yes", and any other values of either field still yield a bundle (no
error). -/
theorem claim_C5 (g : Nat → String) (rid : String) (s : ConvState)
    (row : List String) (v1 v3 v24 v35 v36 v46 v50 : String) (q : Rat)
    (h1 : row[1]? = some v1) (h3 : row[3]? = some v3)
    (h24 : row[24]? = some v24) (h35 : row[35]? = some v35)
    (h36 : row[36]? = some v36) (h46 : row[46]? = some v46)
    (h50 : row[50]? = some v50) (hq : parseFloat v3 = some q) :
    create_bundle g rid s row =
      some ((builtBundle g rid s.counter v1 v24 v35 v36 v46 v50 q, v1),
            builtState g s v1 (v46 == "Yes")) ∧
    (patientsOf (builtBundle g rid s.counter v1 v24 v35 v36 v46 v50 q)).map
        (fun p => p.deceasedBoolean) = [v35 == "0:LIVING"] ∧
    hasProcedure (builtBundle g rid s.counter v1 v24 v35 v36 v46 v50 q) = (v46 == "Yes") := by
  refine ⟨create_bundle_eq g rid s row v1 v3 v24 v35 v36 v46 v50 q
            h1 h3 h24 h35 h36 h46 h50 hq, ?_,
          hasProcedure_builtBundle g rid s.counter v1 v24 v35 v36 v46 v50 q⟩
  rw [patientsOf_builtBundle]
  simp [builtPatient]

/-- C5 witness: a row with sentinel values "1:DECEASED" and "yes" still
converts, with living-status false and no Procedure entry. -/
theorem claim_C5_witness :
    create_bundle gen0 "S" initState sampleRow2 =
      some ((builtBundle gen0 "S" 0 "TCGA-XX-0001" "Z99.9" "1:DECEASED" "TCGA-ABC"
               "yes" "Female" (mkRat 40 1), "TCGA-XX-0001"),
            builtState gen0 initState "TCGA-XX-0001" ("yes" == "Yes")) ∧
    (patientsOf (builtBundle gen0 "S" 0 "TCGA-XX-0001" "Z99.9" "1:DECEASED" "TCGA-ABC"
        "yes" "Female" (mkRat 40 1))).map (fun p => p.deceasedBoolean) =
      [("1:DECEASED" == "0:LIVING")] ∧
    hasProcedure (builtBundle gen0 "S" 0 "TCGA-XX-0001" "Z99.9" "1:DECEASED" "TCGA-ABC"
        "yes" "Female" (mkRat 40 1)) = ("yes" == "Yes") :=
  claim_C5 gen0 "S" initState sampleRow2 "TCGA-XX-0001" "40" "Z99.9" "1:DECEASED"
    "TCGA-ABC" "yes" "Female" (mkRat 40 1)
    (by decide) (by decide) (by decide) (by decide) (by decide) (by decide)
    (by decide) (by decide)

/-- C10: the Patient's deceasedBoolean field is set to the derived
living-status boolean itself, so it is true exactly when the sentinel
field equals "0:LIVING". -/
theorem claim_C10 (g : Nat → String) (rid : String) (s : ConvState)
    (row : List String) (b : Bundle) (k : String) (s2 : ConvState) (v35 : String)
    (h : create_bundle g rid s row = some ((b, k), s2))
    (h35 : row[35]? = some v35) :
    (patientsOf b).map (fun p => p.deceasedBoolean) = [v35 == "0:LIVING"] := by
  obtain ⟨v1, v3, v24, v35x, v36, v46, v50, q, _, _, _, hg35, _, _, _, _, hr⟩ :=
    create_bundle_some g rid s row _ h
  rw [h35] at hg35
  injection hg35 with hv
  subst hv
  rw [Prod.ext_iff, Prod.ext_iff] at hr
  obtain ⟨⟨hb, _⟩, _⟩ := hr
  subst hb
  rw [patientsOf_builtBundle]
  simp [builtPatient]

/-- C10 witness: the concrete living row maps to deceasedBoolean true. -/
theorem claim_C10_witness :
    (patientsOf b1v).map (fun p => p.deceasedBoolean) = [("0:LIVING" == "0:LIVING")] :=
  claim_C10 gen0 "S" initState sampleRow b1v k1v s1v "0:LIVING" (by decide) (by decide)

/-- C8: a non-decimal onset-age field makes create_condition fail, and the
whole row conversion fail with it -- the row is not silently converted
with a default age. -/
theorem claim_C8 (g : Nat → String) (rid : String) (s : ConvState)
    (row : List String) (sid code onset : String)
    (hq : parseFloat onset = none) :
    create_condition g s sid code onset = none ∧
    (row[3]? = some onset → create_bundle g rid s row = none) := by
  constructor
  · simp [create_condition, hq]
  · intro h3
    rcases hcb : create_bundle g rid s row with _ | r
    · rfl
    · obtain ⟨v1, v3, v24, v35, v36, v46, v50, q, _, hg3, _, _, _, _, _, hgq, _⟩ :=
        create_bundle_some g rid s row r hcb
      rw [h3] at hg3
      injection hg3 with hv
      subst hv
      rw [hq] at hgq
      exact Option.noConfusion hgq

/-- C8 witness: the concrete non-numeric age "not-a-number" aborts both
the Diagnosis and the row. -/
theorem claim_C8_witness :
    create_condition gen0 condState "k" "C25.0" "not-a-number" = none ∧
    create_bundle gen0 "S" initState sampleRowBad = none :=
  ⟨(claim_C8 gen0 "S" initState sampleRowBad "k" "C25.0" "not-a-number" (by decide)).1,
   (claim_C8 gen0 "S" initState sampleRowBad "k" "C25.0" "not-a-number" (by decide)).2
     (by decide)⟩

/-- C6: each of the eight known codes has a non-empty German label, any
other code yields none without an exception or fallback, and the
Diagnosis is still constructed for it, with an absent display. -/
theorem claim_C6 (c : String) (hc : c ∉ knownCodes) (g : Nat → String)
    (s : ConvState) (sid pid onset : String) (q : Rat)
    (hp : dictGet s.patients_uuid sid = some pid)
    (hq : parseFloat onset = some q) :
    (∀ k ∈ knownCodes, (get_label k).getD "" ≠ "") ∧
    get_label "C25.0" = some "Bösartige Neubildung: Pankreaskopf" ∧
    get_label c = none ∧
    (create_condition g s sid c onset).map
        (fun r => r.1.code.coding.map (fun cd => cd.display)) = some [none] := by
  have hnone : get_label c = none := by
    simp only [get_label]
    split <;> simp_all [knownCodes]
  refine ⟨by decide, rfl, hnone, ?_⟩
  simp [create_condition, hq, hp, uuid4, hnone]

/-- C6 witness: the unknown code "Z99.9" on a state with a known patient. -/
theorem claim_C6_witness :
    get_label "Z99.9" = none ∧
    (create_condition gen0 condState "k" "Z99.9" "63.5").map
        (fun r => r.1.code.coding.map (fun cd => cd.display)) = some [none] :=
  ⟨(claim_C6 "Z99.9" (by decide) gen0 condState "k" "u" "63.5" (mkRat 127 2)
      (by decide) (by decide)).2.2.1,
   (claim_C6 "Z99.9" (by decide) gen0 condState "k" "u" "63.5" (mkRat 127 2)
      (by decide) (by decide)).2.2.2⟩

/-- Every id of a built bundle is a supply draw with index in the window
[c, c + 3] (the + 3 draw occurring only with the Procedure entry). -/
theorem mem_bundleIds_builtBundle (g : Nat → String) (rid : String) (c : Nat)
    (v1 v24 v35 v36 v46 v50 : String) (q : Rat) (x : String)
    (hx : x ∈ bundleIds (builtBundle g rid c v1 v24 v35 v36 v46 v50 q)) :
    ∃ i, c ≤ i ∧ i < c + (if v46 == "Yes" then 4 else 3) ∧ x = g i := by
  rw [bundleIds_builtBundle] at hx
  by_cases hB : v46 = "Yes"
  · simp [hB] at hx ⊢
    rcases hx with rfl | rfl | rfl | rfl
    · exact ⟨c, by omega, by omega, rfl⟩
    · exact ⟨c + 1, by omega, by omega, rfl⟩
    · exact ⟨c + 2, by omega, by omega, rfl⟩
    · exact ⟨c + 3, by omega, by omega, rfl⟩
  · simp [hB] at hx ⊢
    rcases hx with rfl | rfl | rfl
    · exact ⟨c, by omega, by omega, rfl⟩
    · exact ⟨c + 1, by omega, by omega, rfl⟩
    · exact ⟨c + 2, by omega, by omega, rfl⟩

/-- C9: two rows processed in sequence -- in particular two rows with the
same subject key -- draw disjoint id windows from an injective uuid
supply, so no entity identifier is shared between their bundles. -/
theorem claim_C9 (g : Nat → String) (rid : String) (s : ConvState)
    (row1 row2 : List String) (b1 b2 : Bundle) (k1 k2 : String)
    (s1 s2 : ConvState)
    (hg : Function.Injective g)
    (_hkey : row1[1]? = row2[1]?)
    (h1 : create_bundle g rid s row1 = some ((b1, k1), s1))
    (h2 : create_bundle g rid s1 row2 = some ((b2, k2), s2)) :
    ∀ x ∈ bundleIds b1, ∀ y ∈ bundleIds b2, x ≠ y := by
  obtain ⟨v1, v3, v24, v35, v36, v46, v50, q, _, _, _, _, _, _, _, _, hr1⟩ :=
    create_bundle_some g rid s row1 _ h1
  obtain ⟨w1, w3, w24, w35, w36, w46, w50, p, _, _, _, _, _, _, _, _, hr2⟩ :=
    create_bundle_some g rid s1 row2 _ h2
  rw [Prod.ext_iff, Prod.ext_iff] at hr1 hr2
  obtain ⟨⟨hb1, _⟩, hs1⟩ := hr1
  obtain ⟨⟨hb2, _⟩, _⟩ := hr2
  subst hb1
  subst hb2
  have hs1x : s1 = builtState g s v1 (v46 == "Yes") := by simpa using hs1
  intro x hx y hy
  obtain ⟨i, hi1, hi2, rfl⟩ :=
    mem_bundleIds_builtBundle g rid s.counter v1 v24 v35 v36 v46 v50 q x hx
  obtain ⟨j, hj1, hj2, rfl⟩ :=
    mem_bundleIds_builtBundle g rid s1.counter w1 w24 w35 w36 w46 w50 p y hy
  intro heq
  have hij := hg heq
  by_cases hB : v46 = "Yes"
  · have hc : s1.counter = s.counter + 4 := by rw [hs1x]; simp [builtState, hB]
    have hi2x : i < s.counter + 4 := by simpa [hB] using hi2
    omega
  · have hc : s1.counter = s.counter + 3 := by rw [hs1x]; simp [builtState, hB]
    have hi2x : i < s.counter + 3 := by simpa [hB] using hi2
    omega

/-- C9 witness: the concrete first Patient ids of two same-key rows differ. -/
theorem claim_C9_witness :
    (bundleIds b1v).getD 0 "" ≠ (bundleIds b2v).getD 0 "" :=
  claim_C9 gen0 "S" initState sampleRow sampleRow2 b1v b2v k1v k2v s1v s2v
    gen0_injective (by decide) (by decide) (by decide)
    ((bundleIds b1v).getD 0 "") (by decide) ((bundleIds b2v).getD 0 "") (by decide)

/-- What run mode B guarantees for each output unit: it is a per-row
bundle (never the standalone study), keyed by the subject id its
ResearchSubject identifier carries, and every enrollment references the
supplied study id. -/
def modeBOutputOk (rid : String) : Output → Prop
  | Output.study _ => False
  | Output.bundle k b =>
      ∀ r ∈ researchSubjectsOf b,
        r.identifier = [{ system := STUDY_PATIENT_ID_SYSTEM, value := k }] ∧
        r.study.reference = "ResearchStudy/" ++ rid

/-- The row loop produces one output per row, and each output satisfies
the mode-B guarantees. -/
theorem processRows_ok (g : Nat → String) (rid : String) :
    ∀ (rows : List String) (s : ConvState) (outs : List Output),
      processRows g rid s rows = some outs →
      outs.length = rows.length ∧ ∀ o ∈ outs, modeBOutputOk rid o := by
  intro rows
  induction rows with
  | nil =>
    intro s outs h
    simp only [processRows, Option.some.injEq] at h
    subst h
    simp
  | cons line rest ih =>
    intro s outs h
    simp only [processRows] at h
    rcases hcb : create_bundle g rid s (splitTab line) with _ | r <;> rw [hcb] at h
    · simp at h
    rcases r with ⟨⟨b, k⟩, s1⟩
    simp only [Option.map_eq_some'] at h
    obtain ⟨os, hrec, hcons⟩ := h
    obtain ⟨hlen, hall⟩ := ih s1 os hrec
    subst hcons
    refine ⟨by simp [hlen], ?_⟩
    intro o ho
    rcases List.mem_cons.mp ho with rfl | hos
    · obtain ⟨v1, v3, v24, v35, v36, v46, v50, q, _, _, _, _, _, _, _, _, hr⟩ :=
        create_bundle_some g rid s (splitTab line) _ hcb
      rw [Prod.ext_iff, Prod.ext_iff] at hr
      obtain ⟨⟨hb, hk⟩, _⟩ := hr
      have hkx : k = v1 := by simpa using hk
      subst hb
      subst hkx
      simp only [modeBOutputOk]
      intro rsub hrsub
      rw [researchSubjectsOf_builtBundle] at hrsub
      simp at hrsub
      subst hrsub
      exact ⟨by simp [builtResearchSubject], by simp [builtResearchSubject]⟩
    · exact hall o hos

/-- C7: with no study-id argument the program emits exactly the single
freshly-identified Study and touches no row; with the argument it
processes every non-header row into one keyed bundle referencing the
supplied study id and never emits a standalone Study output. -/
theorem claim_C7 (g : Nat → String) (lines : List String) :
    main_run g none lines = some [Output.study (create_research_study (g 0))] ∧
    (∀ rid outs, main_run g (some rid) lines = some outs →
      outs.length = (lines.drop 1).length ∧ ∀ o ∈ outs, modeBOutputOk rid o) := by
  constructor
  · simp [main_run, uuid4, initState]
  · intro rid outs h
    exact processRows_ok g rid (lines.drop 1) initState outs
      (by simpa [main_run] using h)

/-- A concrete input file: a header line and one tab-separated data line. -/
def sampleLines : List String :=
  ["header", String.intercalate "\t" sampleRow]

/-- The outputs of the concrete mode-B run over sampleLines. -/
def outsV : List Output :=
  (main_run gen0 (some "S") sampleLines).getD []

set_option maxRecDepth 40000 in
/-- C7 witness: the two run modes at a concrete input file. -/
theorem claim_C7_witness :
    main_run gen0 none sampleLines = some [Output.study (create_research_study (gen0 0))] ∧
    outsV.length = (sampleLines.drop 1).length :=
  ⟨(claim_C7 gen0 sampleLines).1,
   ((claim_C7 gen0 sampleLines).2 "S" outsV (by decide)).1⟩
